import Mathlib

/-
Verification development for the secsync repository.

Secsync is an end-to-end-encrypted synchronization protocol. This file gives a
shallow embedding of the pieces the claims are about:
  - the update codec (createUpdate / verifyAndDecryptUpdate),
  - the ephemeral message verification (verifyAndDecryptEphemeralMessage),
  - the server side createUpdate transaction,
  - the document-message update processing and the error ring buffers of the
    sync machine.

Cryptography is modelled symbolically (ideal deterministic signatures and AEAD):
a ciphertext records the key, associated data, nonce and plaintext and decrypts
exactly when key, associated data and nonce match; a detached signature records
the public half of the signer key pair and the signed data and verifies under a
public key exactly when it was produced by the key pair with that public half
over exactly that data. Canonical JSON serialization and base64 encoding are
injective, so public data is carried as a structure and ids as raw byte lists.
-/

/-- An Ed25519 key pair (libsodium KeyPair): private and public half. In the
symbolic model no two key pairs share a public half. -/
structure KeyPair where
  privateKey : String
  publicKey : String
  deriving DecidableEq, Repr

/-- UpdatePublicData from types.ts together with the clock field that
createUpdate sets: refSnapshotId, docId, author pubKey and clock. -/
structure UpdatePublicData where
  refSnapshotId : String
  docId : String
  pubKey : String
  clock : Int
  deriving DecidableEq, Repr

/-- Modelled from the spec: a symbolic XChaCha20-Poly1305 AEAD ciphertext of an
update (crypto/encryptAead.ts is not in src/). It records the key, the
associated data (the canonical publicData, canonicalization being injective),
the nonce and the plaintext. -/
structure UpdateCiphertext where
  encKey : String
  adPublicData : UpdatePublicData
  encNonce : String
  plaintext : String
  deriving DecidableEq, Repr

/-- Modelled from the spec: a symbolic detached Ed25519 signature over
(nonce, ciphertext, canonical publicData) (crypto/sign.ts is not in src/). -/
structure UpdateSignature where
  signerPublicKey : String
  signedNonce : String
  signedCiphertext : UpdateCiphertext
  signedPublicData : UpdatePublicData
  deriving DecidableEq, Repr

/-- An Update as on the wire: ciphertext, nonce, signature and publicData. -/
structure Update where
  ciphertext : UpdateCiphertext
  nonce : String
  signature : UpdateSignature
  publicData : UpdatePublicData
  deriving DecidableEq, Repr

/-- Symbolic verification of the detached signature of an update against a
public key: the signature must come from the key pair with that public half and
cover exactly the nonce, ciphertext and publicData of the update. -/
def verifyUpdateSignature (update : Update) (publicKey : String) : Bool :=
  decide (update.signature.signerPublicKey = publicKey ∧
    update.signature.signedNonce = update.nonce ∧
    update.signature.signedCiphertext = update.ciphertext ∧
    update.signature.signedPublicData = update.publicData)

/-- Symbolic AEAD decryption of an update ciphertext: succeeds exactly when the
key, the associated data (canonical publicData) and the nonce match. -/
def decryptUpdateAead (ciphertext : UpdateCiphertext) (publicData : UpdatePublicData)
    (key : String) (nonce : String) : Option String :=
  if ciphertext.encKey = key ∧ ciphertext.adPublicData = publicData ∧
      ciphertext.encNonce = nonce then
    some ciphertext.plaintext
  else
    none

/-- Modelled from the spec: createUpdate from update/createUpdate.ts (not in
src/; only update/update.test.ts is). Sets publicData.clock to the given clock,
encrypts the content under the key with the canonical publicData as associated
data and a nonce, and signs (nonce, ciphertext, canonical publicData) with the
signature key pair. The fresh random nonce of the source is a parameter here. -/
def createUpdate (content : String) (publicData : UpdatePublicData) (key : String)
    (signatureKeyPair : KeyPair) (clock : Int) (nonce : String) : Update :=
  let publicDataWithClock := { publicData with clock := clock }
  let ciphertext : UpdateCiphertext :=
    { encKey := key
      adPublicData := publicDataWithClock
      encNonce := nonce
      plaintext := content }
  { ciphertext := ciphertext
    nonce := nonce
    signature :=
      { signerPublicKey := signatureKeyPair.publicKey
        signedNonce := nonce
        signedCiphertext := ciphertext
        signedPublicData := publicDataWithClock }
    publicData := publicDataWithClock }

/-- The result object of verifyAndDecryptUpdate: on success content and clock
are set, on failure error is set, and the empty object signals ignore. -/
structure UpdateVerifyResult where
  content : Option String := none
  clock : Option Int := none
  error : Option String := none
  deriving DecidableEq, Repr

/-- Modelled from the spec: verifyAndDecryptUpdate from
update/verifyAndDecryptUpdate.ts (not in src/; only update/update.test.ts is).
Checks the detached signature with the supplied author public key
(SECSYNC_ERROR_212 on failure), requires publicData.refSnapshotId to equal
currentActiveSnapshotId (SECSYNC_ERROR_213), returns the empty result to signal
ignore when the update was authored by the current client or its clock is below
the current clock and the respective skip flag is set, requires the clock to be
exactly currentClock + 1 (SECSYNC_ERROR_214), and finally decrypts
(SECSYNC_ERROR_212 on AEAD failure). -/
def verifyAndDecryptUpdate (update : Update) (key : String)
    (currentActiveSnapshotId : String) (publicKey : String) (currentClock : Int)
    (skipIfCurrentClockIsHigher : Bool) (skipIfUpdateAuthoredByCurrentClient : Bool) :
    UpdateVerifyResult :=
  if verifyUpdateSignature update publicKey = false then
    { error := some "SECSYNC_ERROR_212" }
  else if update.publicData.refSnapshotId ≠ currentActiveSnapshotId then
    { error := some "SECSYNC_ERROR_213" }
  else if skipIfUpdateAuthoredByCurrentClient = true ∧
      update.publicData.pubKey = publicKey then
    {}
  else if skipIfCurrentClockIsHigher = true ∧
      update.publicData.clock < currentClock then
    {}
  else if update.publicData.clock ≠ currentClock + 1 then
    { error := some "SECSYNC_ERROR_214" }
  else
    match decryptUpdateAead update.ciphertext update.publicData key update.nonce with
    | none => { error := some "SECSYNC_ERROR_212" }
    | some content => { content := some content, clock := some update.publicData.clock }

/-- C1: verifyAndDecryptUpdate applied to createUpdate with the same key, the
matching refSnapshotId as currentActiveSnapshotId, the author public key and
currentClock = c - 1 returns content m and clock c; and any modification of the
signature or of the ciphertext of the created update before verification yields
SECSYNC_ERROR_212 with no content and no clock. -/
theorem C1_update_roundtrip_and_tamper (m : String) (publicData : UpdatePublicData)
    (k : String) (kp : KeyPair) (c : Int) (nonce : String) :
    (verifyAndDecryptUpdate (createUpdate m publicData k kp c nonce) k
      publicData.refSnapshotId kp.publicKey (c - 1) false false
      = { content := some m, clock := some c }) ∧
    (∀ s : UpdateSignature, s ≠ (createUpdate m publicData k kp c nonce).signature →
      verifyAndDecryptUpdate
        { createUpdate m publicData k kp c nonce with signature := s } k
        publicData.refSnapshotId kp.publicKey (c - 1) false false
        = { error := some "SECSYNC_ERROR_212" }) ∧
    (∀ ct : UpdateCiphertext, ct ≠ (createUpdate m publicData k kp c nonce).ciphertext →
      verifyAndDecryptUpdate
        { createUpdate m publicData k kp c nonce with ciphertext := ct } k
        publicData.refSnapshotId kp.publicKey (c - 1) false false
        = { error := some "SECSYNC_ERROR_212" }) := by
  refine ⟨?_, ?_, ?_⟩
  · simp [verifyAndDecryptUpdate, createUpdate, verifyUpdateSignature, decryptUpdateAead]
  · intro s hs
    have hfail : verifyUpdateSignature
        { createUpdate m publicData k kp c nonce with signature := s } kp.publicKey
        = false := by
      apply decide_eq_false
      rintro ⟨h1, h2, h3, h4⟩
      apply hs
      cases s
      simp only [createUpdate] at h1 h2 h3 h4 ⊢
      simp_all
    simp [verifyAndDecryptUpdate, hfail]
  · intro ct hct
    have hfail : verifyUpdateSignature
        { createUpdate m publicData k kp c nonce with ciphertext := ct } kp.publicKey
        = false := by
      apply decide_eq_false
      rintro ⟨h1, h2, h3, h4⟩
      apply hct
      simp only [createUpdate] at h3 ⊢
      simp_all
    simp [verifyAndDecryptUpdate, hfail]

/-- Witness for C1 at concrete inputs: the roundtrip at clock 1, a flipped
signature and a flipped ciphertext. -/
theorem C1_witness :
    (verifyAndDecryptUpdate
      (createUpdate "Hello World" ⟨"snapA", "docA", "pkA", 0⟩ "k1" ⟨"privA", "pkA"⟩ 1 "n1")
      "k1" "snapA" "pkA" 0 false false
      = { content := some "Hello World", clock := some 1 }) ∧
    (verifyAndDecryptUpdate
      { createUpdate "Hello World" ⟨"snapA", "docA", "pkA", 0⟩ "k1" ⟨"privA", "pkA"⟩ 1 "n1"
        with signature := ⟨"pkB", "n1",
          ⟨"k1", ⟨"snapA", "docA", "pkA", 1⟩, "n1", "Hello World"⟩,
          ⟨"snapA", "docA", "pkA", 1⟩⟩ }
      "k1" "snapA" "pkA" 0 false false
      = { error := some "SECSYNC_ERROR_212" }) ∧
    (verifyAndDecryptUpdate
      { createUpdate "Hello World" ⟨"snapA", "docA", "pkA", 0⟩ "k1" ⟨"privA", "pkA"⟩ 1 "n1"
        with ciphertext := ⟨"k1", ⟨"snapA", "docA", "pkA", 1⟩, "n1", "tampered"⟩ }
      "k1" "snapA" "pkA" 0 false false
      = { error := some "SECSYNC_ERROR_212" }) := by
  refine ⟨?_, ?_, ?_⟩
  · exact (C1_update_roundtrip_and_tamper "Hello World" ⟨"snapA", "docA", "pkA", 0⟩
      "k1" ⟨"privA", "pkA"⟩ 1 "n1").1
  · exact (C1_update_roundtrip_and_tamper "Hello World" ⟨"snapA", "docA", "pkA", 0⟩
      "k1" ⟨"privA", "pkA"⟩ 1 "n1").2.1 _ (by decide)
  · exact (C1_update_roundtrip_and_tamper "Hello World" ⟨"snapA", "docA", "pkA", 0⟩
      "k1" ⟨"privA", "pkA"⟩ 1 "n1").2.2 _ (by decide)

/-- A string-keyed association map modelling a JS object used as a dictionary.
Lookup finds the first matching key. -/
def alistLookup {α : Type} : List (String × α) → String → Option α
  | [], _ => none
  | (k, v) :: rest, key => if k = key then some v else alistLookup rest key

/-- Setting a key on a JS object ({...obj, [key]: value}): an existing key keeps
its position and gets the new value, a new key is appended at the end. -/
def alistSet {α : Type} : List (String × α) → String → α → List (String × α)
  | [], key, value => [(key, value)]
  | (k, v) :: rest, key, value =>
    if k = key then (key, value) :: rest else (k, v) :: alistSet rest key value

theorem alistLookup_alistSet {α : Type} (l : List (String × α)) (key : String) (value : α) :
    alistLookup (alistSet l key value) key = some value := by
  induction l with
  | nil => simp [alistSet, alistLookup]
  | cons head rest ih =>
    obtain ⟨k, v⟩ := head
    by_cases hk : k = key
    · simp [alistSet, alistLookup, hk]
    · simp [alistSet, alistLookup, hk, ih]

/-- EphemeralMessagePublicData from types.ts: docId and author pubKey. -/
structure EphemeralMessagePublicData where
  docId : String
  pubKey : String
  deriving DecidableEq, Repr

/-- Modelled from the spec: the ephemeral session proof produced by
createEphemeralSessionProof.ts (not in src/): a detached signature with the
signer key over the concatenation of the two session ids, modelled as an ideal
deterministic signature recording both ids and the signer public key. -/
structure EphemeralSessionProof where
  firstSessionId : List Nat
  secondSessionId : List Nat
  signerPublicKey : String
  deriving DecidableEq, Repr

/-- Modelled from the spec: createEphemeralMessageProof(remoteClientSessionId,
currentClientSessionId, signatureKeyPair) signs the concatenation of the remote
session id and the own session id. -/
def createEphemeralMessageProof (remoteClientSessionId : List Nat)
    (currentClientSessionId : List Nat) (signatureKeyPair : KeyPair) :
    EphemeralSessionProof :=
  { firstSessionId := remoteClientSessionId
    secondSessionId := currentClientSessionId
    signerPublicKey := signatureKeyPair.publicKey }

/-- The decrypted payload body after the fixed header: either raw message bytes
or a serialized session proof (the fixed-width framing of the source makes the
two byte encodings disjoint, so they are modelled as a sum). -/
inductive EphemeralBody where
  | raw (bytes : List Nat)
  | sessionProof (p : EphemeralSessionProof)
  deriving DecidableEq, Repr

/-- Modelled from the spec: verifyEphemeralSessionProof(value, ownSessionId,
remoteSessionId, publicKey) from verifyEphemeralSessionProof.ts (not in src/):
the body must be a proof over (ownSessionId, remoteSessionId) signed by the key
pair with the given public half. -/
def verifyEphemeralSessionProof (value : EphemeralBody) (ownSessionId : List Nat)
    (remoteSessionId : List Nat) (publicKey : String) : Bool :=
  match value with
  | EphemeralBody.sessionProof p =>
    decide (p.firstSessionId = ownSessionId ∧ p.secondSessionId = remoteSessionId ∧
      p.signerPublicKey = publicKey)
  | EphemeralBody.raw _ => false

/-- The decrypted ephemeral message plaintext
[messageType, sessionId (24 bytes), sessionCounter (4 bytes big-endian), body].
The fixed-width framing is injective, so it is modelled as a structure; session
ids stay raw byte lists (base64 conversion of the source is injective). -/
structure EphemeralPlaintext where
  messageType : Nat
  sessionId : List Nat
  sessionCounter : Nat
  body : EphemeralBody
  deriving DecidableEq, Repr

/-- Modelled from the spec: the messageTypes constants of
ephemeralMessage/createEphemeralMessage.ts (not in src/):
initialize = 0, proof = 1, proofAndRequestProof = 2, message = 3. -/
def initializeMessageType : Nat := 0

def proofMessageType : Nat := 1

def proofAndRequestProofMessageType : Nat := 2

def messageMessageType : Nat := 3

/-- An entry of validSessions: the session id and counter of a peer. -/
structure EphemeralSessionEntry where
  sessionId : List Nat
  sessionCounter : Nat
  deriving DecidableEq, Repr

/-- validSessions: map from peer public key to its verified session entry. -/
abbrev ValidSessions := List (String × EphemeralSessionEntry)

/-- EphemeralMessagesSession from types.ts: own session id, own counter and the
verified sessions of the peers. -/
structure EphemeralMessagesSession where
  id : List Nat
  counter : Nat
  validSessions : ValidSessions
  deriving DecidableEq, Repr

/-- Modelled from the spec: a symbolic AEAD ciphertext of an ephemeral message
(crypto/encryptAead.ts is not in src/). -/
structure EphemeralCiphertext where
  encKey : String
  adPublicData : EphemeralMessagePublicData
  encNonce : String
  plaintext : EphemeralPlaintext
  deriving DecidableEq, Repr

/-- Modelled from the spec: a symbolic detached signature over
(nonce, ciphertext, canonical publicData) of an ephemeral message. -/
structure EphemeralSignature where
  signerPublicKey : String
  signedNonce : String
  signedCiphertext : EphemeralCiphertext
  signedPublicData : EphemeralMessagePublicData
  deriving DecidableEq, Repr

/-- An EphemeralMessage as on the wire. -/
structure EphemeralMessage where
  ciphertext : EphemeralCiphertext
  nonce : String
  signature : EphemeralSignature
  publicData : EphemeralMessagePublicData
  deriving DecidableEq, Repr

/-- Symbolic verification of the detached signature of an ephemeral message;
the source verifies with the public key taken from publicData.pubKey. -/
def verifyEphemeralSignature (em : EphemeralMessage) (publicKey : String) : Bool :=
  decide (em.signature.signerPublicKey = publicKey ∧
    em.signature.signedNonce = em.nonce ∧
    em.signature.signedCiphertext = em.ciphertext ∧
    em.signature.signedPublicData = em.publicData)

/-- Symbolic AEAD decryption of an ephemeral message ciphertext. -/
def decryptEphemeralAead (ciphertext : EphemeralCiphertext)
    (publicData : EphemeralMessagePublicData) (key : String) (nonce : String) :
    Option EphemeralPlaintext :=
  if ciphertext.encKey = key ∧ ciphertext.adPublicData = publicData ∧
      ciphertext.encNonce = nonce then
    some ciphertext.plaintext
  else
    none

/-- The result object of verifyAndDecryptEphemeralMessage; absent fields of the
returned JS object are none. -/
structure EphemeralVerifyResult where
  content : Option EphemeralBody := none
  proof : Option EphemeralSessionProof := none
  requestProof : Option Bool := none
  validSessions : Option ValidSessions := none
  error : Option String := none
  deriving DecidableEq, Repr

/-- verifyAndDecryptEphemeralMessage from
ephemeralMessage/verifyAndDecryptEphemeralMessage.ts over the symbolic crypto
model. The base64 conversions of the source are injective and are dropped; the
combined condition (no entry or session id mismatch) of the source is split
into two identical SECSYNC_ERROR_22 branches; the outer try/catch
(SECSYNC_ERROR_36) cannot fire since no modelled operation throws. -/
def verifyAndDecryptEphemeralMessage (ephemeralMessage : EphemeralMessage)
    (key : String) (currentDocId : String)
    (ephemeralMessagesSession : EphemeralMessagesSession)
    (authorSignatureKeyPair : KeyPair) : EphemeralVerifyResult :=
  if verifyEphemeralSignature ephemeralMessage ephemeralMessage.publicData.pubKey
      = false then
    { error := some "SECSYNC_ERROR_38" }
  else
    match decryptEphemeralAead ephemeralMessage.ciphertext ephemeralMessage.publicData
        key ephemeralMessage.nonce with
    | none => { error := some "SECSYNC_ERROR_21" }
    | some content =>
      let sessionId := content.sessionId
      let sessionCounter := content.sessionCounter
      let publicKeyAsBase64 := ephemeralMessage.publicData.pubKey
      let validSessions := ephemeralMessagesSession.validSessions
      if ephemeralMessage.publicData.docId ≠ currentDocId then
        { validSessions := some validSessions }
      else if content.messageType = initializeMessageType then
        { proof := some (createEphemeralMessageProof sessionId
            ephemeralMessagesSession.id authorSignatureKeyPair)
          requestProof := some true
          validSessions := some validSessions }
      else if content.messageType = proofMessageType ∨
          content.messageType = proofAndRequestProofMessageType then
        if verifyEphemeralSessionProof content.body ephemeralMessagesSession.id
            sessionId publicKeyAsBase64 = true then
          { validSessions := some (alistSet validSessions publicKeyAsBase64
              { sessionId := sessionId, sessionCounter := sessionCounter })
            proof :=
              if content.messageType = proofAndRequestProofMessageType then
                some (createEphemeralMessageProof sessionId
                  ephemeralMessagesSession.id authorSignatureKeyPair)
              else none
            requestProof := some false }
        else
          { validSessions := some validSessions }
      else if content.messageType = messageMessageType then
        match alistLookup validSessions publicKeyAsBase64 with
        | none =>
          { proof := some (createEphemeralMessageProof sessionId
              ephemeralMessagesSession.id authorSignatureKeyPair)
            requestProof := some true
            validSessions := some validSessions
            error := some "SECSYNC_ERROR_22" }
        | some entry =>
          if entry.sessionId ≠ sessionId then
            { proof := some (createEphemeralMessageProof sessionId
                ephemeralMessagesSession.id authorSignatureKeyPair)
              requestProof := some true
              validSessions := some validSessions
              error := some "SECSYNC_ERROR_22" }
          else if sessionCounter ≤ entry.sessionCounter then
            { error := some "SECSYNC_ERROR_23" }
          else
            { content := some content.body
              validSessions := some (alistSet validSessions publicKeyAsBase64
                { sessionId := sessionId, sessionCounter := sessionCounter }) }
      else
        { error := some "SECSYNC_ERROR_25" }

/-- C2: for a session holding a valid entry with counter c for a sender, a
message-type ephemeral message from that sender with the same session id and a
counter at most c is rejected with SECSYNC_ERROR_23: the result carries no
content and no updated validSessions, so the stored sessions are not advanced. -/
theorem C2_ephemeral_replay_rejected (em : EphemeralMessage) (key : String)
    (currentDocId : String) (session : EphemeralMessagesSession) (kp : KeyPair)
    (pt : EphemeralPlaintext) (entry : EphemeralSessionEntry)
    (hsig : verifyEphemeralSignature em em.publicData.pubKey = true)
    (hdec : decryptEphemeralAead em.ciphertext em.publicData key em.nonce = some pt)
    (hdoc : em.publicData.docId = currentDocId)
    (htype : pt.messageType = messageMessageType)
    (hlookup : alistLookup session.validSessions em.publicData.pubKey = some entry)
    (hsid : entry.sessionId = pt.sessionId)
    (hctr : pt.sessionCounter ≤ entry.sessionCounter) :
    verifyAndDecryptEphemeralMessage em key currentDocId session kp
      = { error := some "SECSYNC_ERROR_23" } := by
  simp only [verifyAndDecryptEphemeralMessage, hsig, hdec, htype, hlookup, hdoc, hsid,
    messageMessageType, initializeMessageType, proofMessageType,
    proofAndRequestProofMessageType]
  simp [hctr]

/-- Witness for C2: a concrete replayed message (counter 5 against stored 5). -/
theorem C2_witness :
    verifyAndDecryptEphemeralMessage
      { ciphertext := ⟨"ek", ⟨"docA", "pkA"⟩, "nA", ⟨3, [1, 2], 5, EphemeralBody.raw [22]⟩⟩
        nonce := "nA"
        signature := ⟨"pkA", "nA",
          ⟨"ek", ⟨"docA", "pkA"⟩, "nA", ⟨3, [1, 2], 5, EphemeralBody.raw [22]⟩⟩,
          ⟨"docA", "pkA"⟩⟩
        publicData := ⟨"docA", "pkA"⟩ }
      "ek" "docA" ⟨[9], 0, [("pkA", ⟨[1, 2], 5⟩)]⟩ ⟨"privB", "pkB"⟩
      = { error := some "SECSYNC_ERROR_23" } := by
  exact C2_ephemeral_replay_rejected _ _ _ _ _ ⟨3, [1, 2], 5, EphemeralBody.raw [22]⟩
    ⟨[1, 2], 5⟩ (by decide) (by decide) (by decide) (by decide) (by decide)
    (by decide) (by decide)

/-- C7: an ephemeral message that passes signature verification and decryption
but whose publicData.docId differs from the current document id is silently
dropped: the result has no content, no proof, no error, and returns the valid
sessions unchanged. -/
theorem C7_ephemeral_docId_mismatch_dropped (em : EphemeralMessage) (key : String)
    (currentDocId : String) (session : EphemeralMessagesSession) (kp : KeyPair)
    (pt : EphemeralPlaintext)
    (hsig : verifyEphemeralSignature em em.publicData.pubKey = true)
    (hdec : decryptEphemeralAead em.ciphertext em.publicData key em.nonce = some pt)
    (hdoc : em.publicData.docId ≠ currentDocId) :
    verifyAndDecryptEphemeralMessage em key currentDocId session kp
      = { validSessions := some session.validSessions } := by
  simp only [verifyAndDecryptEphemeralMessage, hsig, hdec]
  simp [hdoc]

/-- Witness for C7: a concrete message for a different document id. -/
theorem C7_witness :
    verifyAndDecryptEphemeralMessage
      { ciphertext := ⟨"ek", ⟨"wrongDocId", "pkA"⟩, "nA", ⟨3, [1, 2], 7, EphemeralBody.raw [44]⟩⟩
        nonce := "nA"
        signature := ⟨"pkA", "nA",
          ⟨"ek", ⟨"wrongDocId", "pkA"⟩, "nA", ⟨3, [1, 2], 7, EphemeralBody.raw [44]⟩⟩,
          ⟨"wrongDocId", "pkA"⟩⟩
        publicData := ⟨"wrongDocId", "pkA"⟩ }
      "ek" "docA" ⟨[9], 0, [("pkA", ⟨[1, 2], 5⟩)]⟩ ⟨"privB", "pkB"⟩
      = { validSessions := some [("pkA", ⟨[1, 2], 5⟩)] } := by
  exact C7_ephemeral_docId_mismatch_dropped _ _ _ _ _
    ⟨3, [1, 2], 7, EphemeralBody.raw [44]⟩ (by decide) (by decide) (by decide)

/-- C8: for a stored entry with counter c, a message-type ephemeral message
from that sender with the same session id and any counter strictly greater than
c (gaps tolerated) is accepted: the result yields the message body as content
and the stored counter is replaced by the new counter. -/
theorem C8_ephemeral_counter_gap_accepted (em : EphemeralMessage) (key : String)
    (currentDocId : String) (session : EphemeralMessagesSession) (kp : KeyPair)
    (pt : EphemeralPlaintext) (entry : EphemeralSessionEntry)
    (hsig : verifyEphemeralSignature em em.publicData.pubKey = true)
    (hdec : decryptEphemeralAead em.ciphertext em.publicData key em.nonce = some pt)
    (hdoc : em.publicData.docId = currentDocId)
    (htype : pt.messageType = messageMessageType)
    (hlookup : alistLookup session.validSessions em.publicData.pubKey = some entry)
    (hsid : entry.sessionId = pt.sessionId)
    (hctr : entry.sessionCounter < pt.sessionCounter) :
    verifyAndDecryptEphemeralMessage em key currentDocId session kp
      = { content := some pt.body
          validSessions := some (alistSet session.validSessions em.publicData.pubKey
            { sessionId := pt.sessionId, sessionCounter := pt.sessionCounter }) } ∧
    alistLookup (alistSet session.validSessions em.publicData.pubKey
        { sessionId := pt.sessionId, sessionCounter := pt.sessionCounter })
      em.publicData.pubKey
      = some { sessionId := pt.sessionId, sessionCounter := pt.sessionCounter } := by
  constructor
  · simp only [verifyAndDecryptEphemeralMessage, hsig, hdec, htype, hlookup, hdoc, hsid,
      messageMessageType, initializeMessageType, proofMessageType,
      proofAndRequestProofMessageType]
    simp [Nat.not_le_of_lt hctr]
  · exact alistLookup_alistSet _ _ _

/-- Witness for C8: a concrete message jumping the counter from 5 to 9. -/
theorem C8_witness :
    verifyAndDecryptEphemeralMessage
      { ciphertext := ⟨"ek", ⟨"docA", "pkA"⟩, "nA", ⟨3, [1, 2], 9, EphemeralBody.raw [55]⟩⟩
        nonce := "nA"
        signature := ⟨"pkA", "nA",
          ⟨"ek", ⟨"docA", "pkA"⟩, "nA", ⟨3, [1, 2], 9, EphemeralBody.raw [55]⟩⟩,
          ⟨"docA", "pkA"⟩⟩
        publicData := ⟨"docA", "pkA"⟩ }
      "ek" "docA" ⟨[9], 0, [("pkA", ⟨[1, 2], 5⟩)]⟩ ⟨"privB", "pkB"⟩
      = { content := some (EphemeralBody.raw [55])
          validSessions := some [("pkA", ⟨[1, 2], 9⟩)] } := by
  exact (C8_ephemeral_counter_gap_accepted _ _ _ _ _
    ⟨3, [1, 2], 9, EphemeralBody.raw [55]⟩ ⟨[1, 2], 5⟩ (by decide) (by decide)
    (by decide) (by decide) (by decide) (by decide) (by decide)).1

/-- C10: a proof or proofAndRequestProof ephemeral message whose session proof
fails verification leaves the result without error, proof or content and
returns the valid sessions unchanged: the sender is not added. -/
theorem C10_invalid_proof_ignored (em : EphemeralMessage) (key : String)
    (currentDocId : String) (session : EphemeralMessagesSession) (kp : KeyPair)
    (pt : EphemeralPlaintext)
    (hsig : verifyEphemeralSignature em em.publicData.pubKey = true)
    (hdec : decryptEphemeralAead em.ciphertext em.publicData key em.nonce = some pt)
    (hdoc : em.publicData.docId = currentDocId)
    (htype : pt.messageType = proofMessageType ∨
      pt.messageType = proofAndRequestProofMessageType)
    (hproof : verifyEphemeralSessionProof pt.body session.id pt.sessionId
      em.publicData.pubKey = false) :
    verifyAndDecryptEphemeralMessage em key currentDocId session kp
      = { validSessions := some session.validSessions } := by
  rcases htype with htype | htype
  all_goals
    simp only [verifyAndDecryptEphemeralMessage, hsig, hdec, htype, hdoc,
      messageMessageType, initializeMessageType, proofMessageType,
      proofAndRequestProofMessageType]
    simp [hproof]

/-- Witness for C10: a concrete proof message whose embedded proof was signed
over the wrong session ids. -/
theorem C10_witness :
    verifyAndDecryptEphemeralMessage
      { ciphertext := ⟨"ek", ⟨"docA", "pkA"⟩, "nA",
          ⟨1, [1, 2], 0, EphemeralBody.sessionProof ⟨[7, 7], [1, 2], "pkA"⟩⟩⟩
        nonce := "nA"
        signature := ⟨"pkA", "nA",
          ⟨"ek", ⟨"docA", "pkA"⟩, "nA",
            ⟨1, [1, 2], 0, EphemeralBody.sessionProof ⟨[7, 7], [1, 2], "pkA"⟩⟩⟩,
          ⟨"docA", "pkA"⟩⟩
        publicData := ⟨"docA", "pkA"⟩ }
      "ek" "docA" ⟨[9], 0, []⟩ ⟨"privB", "pkB"⟩
      = { validSessions := some [] } := by
  exact C10_invalid_proof_ignored _ _ _ _ _
    ⟨1, [1, 2], 0, EphemeralBody.sessionProof ⟨[7, 7], [1, 2], "pkA"⟩⟩
    (by decide) (by decide) (by decide) (Or.inl (by decide)) (by decide)

namespace Backend

/-- The snapshot row selected by the server createUpdate transaction
(demos/backend/src/database/createUpdate.ts): latestVersion, the per-author
clocks JSON object, and activeSnapshotId of the owning document; the row id is
kept to model the where clause. -/
structure SnapshotRow where
  id : String
  latestVersion : Int
  clocks : List (String × Int)
  activeSnapshotId : Option String
  deriving DecidableEq, Repr

/-- The persisted update row created by prisma.update.create. -/
structure UpdateRow where
  data : Update
  version : Int
  snapshotId : String
  snapshotVersion : Int
  pubKey : String
  deriving DecidableEq, Repr

/-- The per-document server storage touched by the transaction. -/
structure ServerState where
  snapshots : List SnapshotRow
  updates : List UpdateRow
  deriving DecidableEq, Repr

/-- prisma.snapshot.findUniqueOrThrow modelled on the snapshot list. -/
def findSnapshot : List SnapshotRow → String → Option SnapshotRow
  | [], _ => none
  | s :: rest, id => if s.id = id then some s else findSnapshot rest id

theorem findSnapshot_id (l : List SnapshotRow) (id : String) (s : SnapshotRow)
    (h : findSnapshot l id = some s) : s.id = id := by
  induction l with
  | nil => simp [findSnapshot] at h
  | cons head rest ih =>
    by_cases hid : head.id = id
    · simp [findSnapshot, hid] at h
      rw [← h]
      exact hid
    · simp [findSnapshot, hid] at h
      exact ih h

theorem findSnapshot_map (l : List SnapshotRow) (id : String)
    (f : SnapshotRow → SnapshotRow) (hf : ∀ s, (f s).id = s.id) :
    findSnapshot (l.map f) id = Option.map f (findSnapshot l id) := by
  induction l with
  | nil => simp [findSnapshot]
  | cons head rest ih =>
    by_cases hid : head.id = id
    · simp [findSnapshot, hf, hid]
    · simp [findSnapshot, hf, hid, ih]

/-- The success path of the server createUpdate transaction: the snapshot row
gets latestVersion + 1 and the updated clocks, and the update row is persisted
with version = previous latestVersion + 1 and snapshotVersion = the update
clock. -/
def persistUpdate (state : ServerState) (update : Update) (snapshot : SnapshotRow) :
    ServerState × UpdateRow :=
  let newClocks := alistSet snapshot.clocks update.publicData.pubKey
    update.publicData.clock
  let newRow : UpdateRow :=
    { data := update
      version := snapshot.latestVersion + 1
      snapshotId := update.publicData.refSnapshotId
      snapshotVersion := update.publicData.clock
      pubKey := update.publicData.pubKey }
  ({ snapshots := state.snapshots.map fun s =>
      if s.id = update.publicData.refSnapshotId then
        { s with latestVersion := snapshot.latestVersion + 1, clocks := newClocks }
      else s
     updates := state.updates ++ [newRow] },
   newRow)

/-- Server createUpdate from demos/backend/src/database/createUpdate.ts. The
prisma transaction is modelled as Except: an error persists nothing. The clocks
JSON column is modelled as a string-keyed map, which is always a JSON object,
so the typeof-object guard of the source always passes. -/
def createUpdate (state : ServerState) (update : Update) :
    Except String (ServerState × UpdateRow) :=
  match findSnapshot state.snapshots update.publicData.refSnapshotId with
  | none => Except.error "Snapshot not found."
  | some snapshot =>
    if snapshot.activeSnapshotId ≠ some update.publicData.refSnapshotId then
      Except.error "Update referencing an out of date snapshot."
    else
      let clockCheckFailed : Bool :=
        match alistLookup snapshot.clocks update.publicData.pubKey with
        | none => decide (update.publicData.clock ≠ 0)
        | some storedClock => decide (storedClock + 1 ≠ update.publicData.clock)
      if clockCheckFailed = true then
        Except.error "Update clock incorrect."
      else
        Except.ok (persistUpdate state update snapshot)

end Backend

/-- C5: the server createUpdate rejects an update whose refSnapshotId is not
the active snapshot id of the document (the transaction throws, nothing is
persisted); with no stored clock entry for the author it rejects unless the
clock is 0; with a stored entry it rejects unless the clock is stored + 1; on
success the stored clock of the author becomes the update clock and the
persisted row gets version = previous latestVersion + 1. -/
theorem C5_server_createUpdate (state : Backend.ServerState) (update : Update)
    (snapshot : Backend.SnapshotRow)
    (hfind : Backend.findSnapshot state.snapshots update.publicData.refSnapshotId
      = some snapshot) :
    (snapshot.activeSnapshotId ≠ some update.publicData.refSnapshotId →
      ∃ e, Backend.createUpdate state update = Except.error e) ∧
    (alistLookup snapshot.clocks update.publicData.pubKey = none →
      update.publicData.clock ≠ 0 →
      ∃ e, Backend.createUpdate state update = Except.error e) ∧
    (∀ storedClock, alistLookup snapshot.clocks update.publicData.pubKey = some storedClock →
      update.publicData.clock ≠ storedClock + 1 →
      ∃ e, Backend.createUpdate state update = Except.error e) ∧
    (snapshot.activeSnapshotId = some update.publicData.refSnapshotId →
      (alistLookup snapshot.clocks update.publicData.pubKey = none ∧
          update.publicData.clock = 0) ∨
        (∃ storedClock,
          alistLookup snapshot.clocks update.publicData.pubKey = some storedClock ∧
          update.publicData.clock = storedClock + 1) →
      ∃ newState newRow,
        Backend.createUpdate state update = Except.ok (newState, newRow) ∧
        newRow.version = snapshot.latestVersion + 1 ∧
        ∃ snapshot2,
          Backend.findSnapshot newState.snapshots update.publicData.refSnapshotId
            = some snapshot2 ∧
          alistLookup snapshot2.clocks update.publicData.pubKey
            = some update.publicData.clock) := by
  refine ⟨?_, ?_, ?_, ?_⟩
  · intro hactive
    refine ⟨"Update referencing an out of date snapshot.", ?_⟩
    simp [Backend.createUpdate, hfind, hactive]
  · intro hlookup hclock
    rcases hact : decide (snapshot.activeSnapshotId
        = some update.publicData.refSnapshotId) with _ | _
    · refine ⟨"Update referencing an out of date snapshot.", ?_⟩
      simp [Backend.createUpdate, hfind, of_decide_eq_false hact]
    · refine ⟨"Update clock incorrect.", ?_⟩
      simp [Backend.createUpdate, hfind, of_decide_eq_true hact, hlookup, hclock]
  · intro storedClock hlookup hclock
    rcases hact : decide (snapshot.activeSnapshotId
        = some update.publicData.refSnapshotId) with _ | _
    · refine ⟨"Update referencing an out of date snapshot.", ?_⟩
      simp [Backend.createUpdate, hfind, of_decide_eq_false hact]
    · refine ⟨"Update clock incorrect.", ?_⟩
      simp [Backend.createUpdate, hfind, of_decide_eq_true hact, hlookup]
      omega
  · intro hactive hok
    have hcheck :
        (match alistLookup snapshot.clocks update.publicData.pubKey with
          | none => decide (update.publicData.clock ≠ 0)
          | some storedClock => decide (storedClock + 1 ≠ update.publicData.clock))
          = false := by
      rcases hok with ⟨hnone, hzero⟩ | ⟨storedClock, hsome, hsucc⟩
      · simp [hnone, hzero]
      · simp [hsome, hsucc]
    refine ⟨(Backend.persistUpdate state update snapshot).1,
      (Backend.persistUpdate state update snapshot).2, ?_, rfl, ?_⟩
    · simp [Backend.createUpdate, hfind, hactive]
      simpa using hcheck
    · have hid : snapshot.id = update.publicData.refSnapshotId :=
        Backend.findSnapshot_id _ _ _ hfind
      simp only [Backend.persistUpdate]
      rw [Backend.findSnapshot_map]
      · rw [hfind]
        refine ⟨_, rfl, ?_⟩
        simp [hid, alistLookup_alistSet]
      · intro s
        by_cases hs : s.id = update.publicData.refSnapshotId <;> simp [hs]

/-- Witness for C5: a concrete one-snapshot store where the author has stored
clock 3; an update with clock 9 is rejected with the clock error. -/
theorem C5_witness :
    ∃ e,
      Backend.createUpdate
        ⟨[⟨"snapA", 7, [("pkA", 3)], some "snapA"⟩], []⟩
        { ciphertext := ⟨"k", ⟨"snapA", "docA", "pkA", 9⟩, "n", "body"⟩
          nonce := "n"
          signature := ⟨"pkA", "n", ⟨"k", ⟨"snapA", "docA", "pkA", 9⟩, "n", "body"⟩,
            ⟨"snapA", "docA", "pkA", 9⟩⟩
          publicData := ⟨"snapA", "docA", "pkA", 9⟩ }
        = Except.error e := by
  exact (C5_server_createUpdate _ _ ⟨"snapA", 7, [("pkA", 3)], some "snapA"⟩
    (by decide)).2.2.1 3 (by decide) (by decide)

/-- Modelled from the spec: documentDecryptionState of the sync machine context
(createSyncMachine.ts is not in src/): pending, partial, complete or failed. -/
inductive DocumentDecryptionState where
  | pending
  | partialState
  | complete
  | failedState
  deriving DecidableEq, Repr

/-- The per-author clock used by the document handling: the stored entry, or -1
when the author has no entry yet (the first update of an author has clock 0). -/
def getClock (clocks : List (String × Int)) (publicKey : String) : Int :=
  (alistLookup clocks publicKey).getD (-1)

/-- Modelled from the spec: one step of the document update iteration of
createSyncMachine (not in src/): the update is verified and decrypted against
the active snapshot id, the author public key and the per-author clock; on
success it yields the decrypted content and the advanced clocks. -/
def updateStep (key activeSnapshotId : String) (clocks : List (String × Int))
    (u : Update) : Option (String × List (String × Int)) :=
  match verifyAndDecryptUpdate u key activeSnapshotId u.publicData.pubKey
      (getClock clocks u.publicData.pubKey) false false with
  | ⟨some c, some cl, _⟩ => some (c, alistSet clocks u.publicData.pubKey cl)
  | _ => none

/-- Modelled from the spec: the document update iteration of createSyncMachine
(not in src/): updates are processed in order; each success is applied and
advances the per-author clock; the first failure stops the iteration. Returns
the applied contents, the final clocks, and whether all updates succeeded. -/
def decryptUpdatesLoop (key activeSnapshotId : String) :
    List (String × Int) → List Update → List String × List (String × Int) × Bool
  | clocks, [] => ([], clocks, true)
  | clocks, u :: rest =>
    match updateStep key activeSnapshotId clocks u with
    | some (c, newClocks) =>
      (c :: (decryptUpdatesLoop key activeSnapshotId newClocks rest).1,
        (decryptUpdatesLoop key activeSnapshotId newClocks rest).2)
    | none => ([], clocks, false)

/-- The outcome of the update stage of the document message handling. -/
structure DocumentHandlingOutcome where
  appliedUpdates : List String
  documentDecryptionState : DocumentDecryptionState
  machineFailed : Bool
  deriving DecidableEq, Repr

/-- Modelled from the spec: the update stage of the document message handling
of createSyncMachine (not in src/), entered after the snapshot has been
verified and decrypted and the per-snapshot clocks have been reset: if some
update fails, documentDecryptionState becomes partial and the machine
transitions to failed; if all succeed it becomes complete. -/
def handleDocumentUpdates (key activeSnapshotId : String) (updates : List Update) :
    DocumentHandlingOutcome :=
  let r := decryptUpdatesLoop key activeSnapshotId [] updates
  { appliedUpdates := r.1
    documentDecryptionState :=
      if r.2.2 = true then DocumentDecryptionState.complete
      else DocumentDecryptionState.partialState
    machineFailed := !r.2.2 }

theorem decryptUpdatesLoop_append (key activeSnapshotId : String)
    (good : List Update) : ∀ (clocks clocks1 : List (String × Int))
    (cs : List String) (l : List Update),
    decryptUpdatesLoop key activeSnapshotId clocks good = (cs, clocks1, true) →
    decryptUpdatesLoop key activeSnapshotId clocks (good ++ l)
      = (cs ++ (decryptUpdatesLoop key activeSnapshotId clocks1 l).1,
        (decryptUpdatesLoop key activeSnapshotId clocks1 l).2) := by
  induction good with
  | nil =>
    intro clocks clocks1 cs l h
    simp only [decryptUpdatesLoop] at h
    injection h with h1 h2
    injection h2 with h2 h3
    subst h1
    subst h2
    simp
  | cons u good ih =>
    intro clocks clocks1 cs l h
    rcases hstep : updateStep key activeSnapshotId clocks u with _ | ⟨c, newClocks⟩
    · simp only [decryptUpdatesLoop, hstep] at h
      simp at h
    · simp only [decryptUpdatesLoop, hstep] at h
      rcases hrec : decryptUpdatesLoop key activeSnapshotId newClocks good
        with ⟨cs2, rest2⟩
      rcases rest2 with ⟨clocks2, ok2⟩
      rw [hrec] at h
      injection h with h1 h2
      injection h2 with h2 h3
      subst h2
      subst h3
      subst h1
      simp only [List.cons_append, decryptUpdatesLoop, hstep, List.append_eq]
      rw [ih newClocks clocks2 cs2 l hrec]

/-- C6: during document handling, after the snapshot decrypted, the attached
updates are processed in order: with a good prefix followed by a failing update
exactly the contents of the prefix are applied, the iteration stops (the
updates after the failing one are ignored), documentDecryptionState becomes
partial and the machine transitions to failed; if every attached update
verifies and decrypts, documentDecryptionState is complete. -/
theorem C6_document_updates_processing (key activeSnapshotId : String) :
    (∀ (good : List Update) (bad : Update) (rest : List Update)
      (cs : List String) (clocks1 : List (String × Int)),
      decryptUpdatesLoop key activeSnapshotId [] good = (cs, clocks1, true) →
      updateStep key activeSnapshotId clocks1 bad = none →
      handleDocumentUpdates key activeSnapshotId (good ++ bad :: rest)
        = { appliedUpdates := cs
            documentDecryptionState := DocumentDecryptionState.partialState
            machineFailed := true }) ∧
    (∀ (updates : List Update) (cs : List String) (clocks1 : List (String × Int)),
      decryptUpdatesLoop key activeSnapshotId [] updates = (cs, clocks1, true) →
      handleDocumentUpdates key activeSnapshotId updates
        = { appliedUpdates := cs
            documentDecryptionState := DocumentDecryptionState.complete
            machineFailed := false }) := by
  constructor
  · intro good bad rest cs clocks1 hgood hbad
    have happ := decryptUpdatesLoop_append key activeSnapshotId good []
      clocks1 cs (bad :: rest) hgood
    rw [show decryptUpdatesLoop key activeSnapshotId clocks1 (bad :: rest)
        = ([], clocks1, false) by simp [decryptUpdatesLoop, hbad]] at happ
    simp only [handleDocumentUpdates, happ]
    simp
  · intro updates cs clocks1 h
    simp [handleDocumentUpdates, h]

/-- Witness for C6: a concrete snapshot key and id with one good update with
clock 0 and a failing update with clock 1000 (like the S6 scenario); and the
one-good-update list alone decrypts completely. -/
theorem C6_witness :
    (handleDocumentUpdates "k1" "snapA"
      [createUpdate "u" ⟨"snapA", "docA", "pkA", 0⟩ "k1" ⟨"privA", "pkA"⟩ 0 "n0",
        createUpdate "x" ⟨"snapA", "docA", "pkA", 0⟩ "k1" ⟨"privA", "pkA"⟩ 1000 "n1"]
      = { appliedUpdates := ["u"]
          documentDecryptionState := DocumentDecryptionState.partialState
          machineFailed := true }) ∧
    (handleDocumentUpdates "k1" "snapA"
      [createUpdate "u" ⟨"snapA", "docA", "pkA", 0⟩ "k1" ⟨"privA", "pkA"⟩ 0 "n0"]
      = { appliedUpdates := ["u"]
          documentDecryptionState := DocumentDecryptionState.complete
          machineFailed := false }) := by
  constructor
  · exact (C6_document_updates_processing "k1" "snapA").1
      [createUpdate "u" ⟨"snapA", "docA", "pkA", 0⟩ "k1" ⟨"privA", "pkA"⟩ 0 "n0"]
      (createUpdate "x" ⟨"snapA", "docA", "pkA", 0⟩ "k1" ⟨"privA", "pkA"⟩ 1000 "n1")
      [] ["u"] [("pkA", 0)] (by decide) (by decide)
  · exact (C6_document_updates_processing "k1" "snapA").2
      [createUpdate "u" ⟨"snapA", "docA", "pkA", 0⟩ "k1" ⟨"privA", "pkA"⟩ 0 "n0"]
      ["u"] [("pkA", 0)] (by decide)

/-- Modelled from the spec: appending to one of the ephemeral error ring
buffers of the sync machine context (createSyncMachine.ts is not in src/),
used both for the receiving errors and the authoring errors: the new error is
prepended (newest first, as the tests observe) and the buffer keeps at most 20
entries, dropping the oldest. -/
def addErrorToBuffer (e : String) (buffer : List String) : List String :=
  (e :: buffer).take 20

/-- The buffer obtained after recording a sequence of errors into an initially
empty ring buffer. -/
def recordErrors (errors : List String) : List String :=
  errors.foldl (fun buffer e => addErrorToBuffer e buffer) []

theorem take_append_take {α : Type} (l1 l2 : List α) (n : Nat) :
    (l1 ++ l2.take n).take n = (l1 ++ l2).take n := by
  rw [List.take_append_eq_append_take, List.take_append_eq_append_take,
    List.take_take]
  congr 1
  rw [Nat.min_eq_left (Nat.sub_le n l1.length)]

theorem recordErrors_foldl (es : List String) : ∀ buffer : List String,
    buffer.length ≤ 20 →
    es.foldl (fun buffer e => addErrorToBuffer e buffer) buffer
      = (es.reverse ++ buffer).take 20 := by
  induction es with
  | nil =>
    intro buffer h
    simp [List.take_of_length_le h]
  | cons e es ih =>
    intro buffer h
    have hlen : (addErrorToBuffer e buffer).length ≤ 20 := by
      simp [addErrorToBuffer]
    rw [List.foldl_cons, ih (addErrorToBuffer e buffer) hlen]
    simp only [addErrorToBuffer, List.reverse_cons]
    rw [take_append_take]
    simp

/-- C9: the ephemeral error ring buffers hold at most 20 entries: appending
keeps the bound, appending to a full buffer of 20 evicts the oldest entry, and
after recording more than 20 errors exactly 20 remain and they are the most
recent ones (newest first). -/
theorem C9_error_ring_buffers :
    (∀ (buffer : List String) (e : String), buffer.length ≤ 20 →
      (addErrorToBuffer e buffer).length ≤ 20) ∧
    (∀ (buffer : List String) (e : String), buffer.length = 20 →
      addErrorToBuffer e buffer = e :: buffer.take 19) ∧
    (∀ errors : List String, 20 < errors.length →
      (recordErrors errors).length = 20 ∧
        recordErrors errors = errors.reverse.take 20) := by
  refine ⟨?_, ?_, ?_⟩
  · intro buffer e _
    simp [addErrorToBuffer]
  · intro buffer e _
    simp [addErrorToBuffer]
  · intro errors hlen
    have h := recordErrors_foldl errors [] (by simp)
    rw [List.append_nil] at h
    constructor
    · rw [recordErrors, h]
      simp
      omega
    · rw [recordErrors, h]

/-- Witness for C9: a full buffer of 20 entries and a run of 21 errors. -/
theorem C9_witness :
    ((addErrorToBuffer "e" (List.replicate 20 "x")).length ≤ 20) ∧
    (addErrorToBuffer "e" (List.replicate 20 "x")
      = "e" :: (List.replicate 20 "x").take 19) ∧
    ((recordErrors (List.replicate 21 "err")).length = 20 ∧
      recordErrors (List.replicate 21 "err")
        = (List.replicate 21 "err").reverse.take 20) := by
  refine ⟨?_, ?_, ?_⟩
  · exact C9_error_ring_buffers.1 (List.replicate 20 "x") "e" (by decide)
  · exact C9_error_ring_buffers.2.1 (List.replicate 20 "x") "e" (by decide)
  · exact C9_error_ring_buffers.2.2 (List.replicate 21 "err") (by decide)

/-- C3: for a created update verified with matching refSnapshotId and both skip
flags false, a clock equal to currentClock + 1 yields {content, clock} and any
other clock yields SECSYNC_ERROR_214. -/
theorem C3_update_clock_check (m : String) (publicData : UpdatePublicData)
    (k : String) (kp : KeyPair) (c : Int) (nonce : String) (currentClock : Int) :
    (c = currentClock + 1 →
      verifyAndDecryptUpdate (createUpdate m publicData k kp c nonce) k
        publicData.refSnapshotId kp.publicKey currentClock false false
        = { content := some m, clock := some c }) ∧
    (c ≠ currentClock + 1 →
      verifyAndDecryptUpdate (createUpdate m publicData k kp c nonce) k
        publicData.refSnapshotId kp.publicKey currentClock false false
        = { error := some "SECSYNC_ERROR_214" }) := by
  constructor
  · intro hc
    subst hc
    simp [verifyAndDecryptUpdate, createUpdate, verifyUpdateSignature, decryptUpdateAead]
  · intro hc
    simp [verifyAndDecryptUpdate, createUpdate, verifyUpdateSignature, hc]

/-- Witness for C3: the S2 scenario, clock 10 against currentClock 9 succeeds
and against currentClock 10 fails with SECSYNC_ERROR_214. -/
theorem C3_witness :
    (verifyAndDecryptUpdate
      (createUpdate "Hello World" ⟨"snapA", "docA", "pkA", 0⟩ "k1" ⟨"privA", "pkA"⟩ 10 "n1")
      "k1" "snapA" "pkA" 9 false false
      = { content := some "Hello World", clock := some 10 }) ∧
    (verifyAndDecryptUpdate
      (createUpdate "Hello World" ⟨"snapA", "docA", "pkA", 0⟩ "k1" ⟨"privA", "pkA"⟩ 10 "n1")
      "k1" "snapA" "pkA" 10 false false
      = { error := some "SECSYNC_ERROR_214" }) := by
  constructor
  · exact (C3_update_clock_check "Hello World" ⟨"snapA", "docA", "pkA", 0⟩ "k1"
      ⟨"privA", "pkA"⟩ 10 "n1" 9).1 (by decide)
  · exact (C3_update_clock_check "Hello World" ⟨"snapA", "docA", "pkA", 0⟩ "k1"
      ⟨"privA", "pkA"⟩ 10 "n1" 10).2 (by decide)

/-- C4: a created update verified against a currentActiveSnapshotId different
from its refSnapshotId yields SECSYNC_ERROR_213 with no content and no clock,
for every currentClock and both skip flags, in particular when
skipIfCurrentClockIsHigher is true and the clock is below currentClock. -/
theorem C4_refSnapshotId_mismatch (m : String) (publicData : UpdatePublicData)
    (k : String) (kp : KeyPair) (c : Int) (nonce : String)
    (currentActiveSnapshotId : String) (currentClock : Int)
    (skipIfCurrentClockIsHigher skipIfUpdateAuthoredByCurrentClient : Bool)
    (h : currentActiveSnapshotId ≠ publicData.refSnapshotId) :
    verifyAndDecryptUpdate (createUpdate m publicData k kp c nonce) k
      currentActiveSnapshotId kp.publicKey currentClock
      skipIfCurrentClockIsHigher skipIfUpdateAuthoredByCurrentClient
      = { error := some "SECSYNC_ERROR_213" } := by
  simp only [verifyAndDecryptUpdate, createUpdate, verifyUpdateSignature]
  simp
  intro hcontra
  exact absurd hcontra.symm h

/-- Witness for C4: the S3 scenario, verifying against "somethingelse" with
skipIfCurrentClockIsHigher true and clock 0 below currentClock 10. -/
theorem C4_witness :
    verifyAndDecryptUpdate
      (createUpdate "Hello World" ⟨"snapA", "docA", "pkA", 0⟩ "k1" ⟨"privA", "pkA"⟩ 0 "n1")
      "k1" "somethingelse" "pkA" 10 true false
      = { error := some "SECSYNC_ERROR_213" } := by
  exact C4_refSnapshotId_mismatch "Hello World" ⟨"snapA", "docA", "pkA", 0⟩ "k1"
    ⟨"privA", "pkA"⟩ 0 "n1" "somethingelse" 10 true false (by decide)
